import Mathlib

/-!
Verification development for the rig-extra agent-pool dispatcher.

The definitions below are a shallow embedding of the Rust sources:

* src/rig-extra/src/rand_agent.rs        (RandAgent, AgentState, builder)
* src/rig-extra/src/thread_safe_rand_agent.rs (ThreadSafeRandAgent)
* src/rig-extra/src/simple_rand_builder.rs    (simple_builder, ProviderEnum)
* src/rig-extra/src/extra_providers/bigmodel.rs (Client::post URL computation)

Rust u32 counters are modelled as Nat with an explicit reduction modulo
2 to the 32 at every point where the source stores a u32.  Agent handles
perform network IO; a call outcome is therefore an oracle input
(CallOutcome) to each prompt step, and the pseudo random draw of the
selection is an oracle Nat reduced modulo the number of valid indices,
exactly as rand::Rng::random_range produces an index below that count.
-/

/-- Modulus of the Rust u32 type. -/
def u32Mod : Nat := 4294967296

/-- Interpretation of a u32 value: reduce modulo 2 to the 32. -/
def u32 (n : Nat) : Nat := n % u32Mod

/-- Mirror of struct AgentInfo (lib.rs): identity plus failure accounting. -/
structure AgentInfo where
  id : Int
  provider : String
  model : String
  failure_count : Nat
  max_failures : Nat
deriving DecidableEq, Repr

/-- Mirror of struct AgentState (rand_agent.rs); the network handle field
agent is omitted because its behaviour enters only through CallOutcome. -/
structure AgentState where
  id : Int
  info : AgentInfo
deriving DecidableEq, Repr

instance : Inhabited AgentState :=
  ⟨{ id := 0, info := { id := 0, provider := "", model := "", failure_count := 0, max_failures := 0 } }⟩

/-- Mirror of AgentState::new (rand_agent.rs lines 124-142). -/
def AgentState.new (id : Int) (provider model : String) (mf : Nat) : AgentState :=
  { id, info := { id, provider, model, failure_count := 0, max_failures := u32 mf } }

/-- Mirror of AgentState::is_valid: failure_count < max_failures. -/
def AgentState.is_valid (s : AgentState) : Bool :=
  s.info.failure_count < s.info.max_failures

/-- Mirror of AgentState::record_failure: failure_count += 1 on a u32. -/
def AgentState.record_failure (s : AgentState) : AgentState :=
  { s with info := { s.info with failure_count := u32 (s.info.failure_count + 1) } }

/-- Mirror of AgentState::record_success: failure_count = 0. -/
def AgentState.record_success (s : AgentState) : AgentState :=
  { s with info := { s.info with failure_count := 0 } }

/-- Mirror of rig Message as far as the dispatcher observes it: the
dispatcher only ever stores an empty chat history, so the precise
message shape is irrelevant beyond decidable equality. -/
inductive Message where
  | user (content : String)
  | assistant (content : String)
deriving DecidableEq, Repr

/-- Mirror of the PromptError variants the dispatcher constructs or
forwards (rig::completion::PromptError restricted to observable shape). -/
inductive PromptError where
  | maxDepthError (max_depth : Nat) (chat_history : List Message) (prompt : String)
  | providerError (message : String)
  | transportError (cause : String)
deriving DecidableEq, Repr

/-- Outcome of the awaited agent handle call, supplied by the environment. -/
inductive CallOutcome where
  | success (content : String)
  | failure (err : PromptError)
deriving DecidableEq, Repr

/-- The error built at rand_agent.rs lines 89-93: MaxDepthError with
max_depth 0, empty chat history and the literal prompt text from the
source. -/
def noValidAgentError : PromptError :=
  .maxDepthError 0 [] "没有有效agent"

/-- Mirror of the valid-indices computation shared by
get_random_valid_agent_index (rand_agent.rs lines 230-236): enumerate,
filter on is_valid, keep the positions. -/
def validIndices (st : List AgentState) : List Nat :=
  (st.enum.filter (fun p => p.2.is_valid)).map (fun p => p.1)

/-- Mirror of RandAgent::get_random_valid_agent_index (rand_agent.rs
lines 229-245); pick is the oracle for rng.random_range, reduced modulo
the number of valid indices. -/
def get_random_valid_agent_index (st : List AgentState) (pick : Nat) : Option Nat :=
  let valid := validIndices st
  if valid.length = 0 then none
  else some (valid.getD (pick % valid.length) 0)

instance {ε α : Type} [DecidableEq ε] [DecidableEq α] : DecidableEq (Except ε α) := fun a b =>
  match a, b with
  | .error e, .error f =>
    if h : e = f then .isTrue (by rw [h]) else .isFalse (by intro hh; cases hh; exact h rfl)
  | .error _, .ok _ => .isFalse (by intro h; cases h)
  | .ok _, .error _ => .isFalse (by intro h; cases h)
  | .ok x, .ok y =>
    if h : x = y then .isTrue (by rw [h]) else .isFalse (by intro hh; cases hh; exact h rfl)

/-- Observable effect of one sequential RandAgent::prompt call: the value
returned to the caller, the pool after the call, and the id passed to the
invalidation callback when it fired. -/
structure PromptStep where
  result : Except PromptError String
  state : List AgentState
  fired : Option Int
deriving DecidableEq, Repr

/-- Mirror of RandAgent::prompt (rand_agent.rs lines 84-120) for one call
with no interleaved operation: select a valid index or fail with
noValidAgentError; on success record_success; on failure record_failure
and fire the callback exactly when the entry is no longer valid. -/
def RandAgent.prompt (st : List AgentState) (pick : Nat) (outcome : CallOutcome) : PromptStep :=
  match get_random_valid_agent_index st pick with
  | none => ⟨.error noValidAgentError, st, none⟩
  | some i =>
    let s := st.getD i default
    match outcome with
    | .success content => ⟨.ok content, st.set i s.record_success, none⟩
    | .failure e =>
      let s2 := s.record_failure
      ⟨.error e, st.set i s2, if s2.is_valid then none else some s2.id⟩

/-- Observable effect of one sequential RandAgent::prompt_with_info call. -/
structure PromptWithInfoStep where
  result : Except PromptError (String × AgentInfo)
  state : List AgentState
  fired : Option Int
deriving DecidableEq, Repr

/-- Mirror of RandAgent::prompt_with_info (rand_agent.rs lines 364-405):
identical to prompt except that the AgentInfo snapshot is cloned before
the awaited call and returned next to the text on success. -/
def RandAgent.prompt_with_info (st : List AgentState) (pick : Nat) (outcome : CallOutcome) :
    PromptWithInfoStep :=
  match get_random_valid_agent_index st pick with
  | none => ⟨.error noValidAgentError, st, none⟩
  | some i =>
    let s := st.getD i default
    let agent_info := s.info
    match outcome with
    | .success content => ⟨.ok (content, agent_info), st.set i s.record_success, none⟩
    | .failure e =>
      let s2 := s.record_failure
      ⟨.error e, st.set i s2, if s2.is_valid then none else some s2.id⟩

/-- Mirror of RandAgent::add_agent (rand_agent.rs lines 198-207): pushes a
new state built with the literal max_failures value 3. -/
def RandAgent.add_agent (st : List AgentState) (id : Int) (provider model : String) :
    List AgentState :=
  st ++ [AgentState.new id provider model 3]

/-- Mirror of RandAgent::add_agent_with_max_failures (rand_agent.rs lines
210-220). -/
def RandAgent.add_agent_with_max_failures (st : List AgentState) (id : Int)
    (provider model : String) (mf : Nat) : List AgentState :=
  st ++ [AgentState.new id provider model mf]

/-- Mirror of RandAgent::reset_failures (rand_agent.rs lines 299-304). -/
def RandAgent.reset_failures (st : List AgentState) : List AgentState :=
  st.map (fun s => { s with info := { s.info with failure_count := 0 } })

/-- Mirror of RandAgent::with_max_failures (rand_agent.rs lines 164-187):
build the pool from (id, provider, model) triples, every entry sharing
one max_failures value. -/
def RandAgent.with_max_failures (agents : List (Int × String × String)) (mf : Nat) :
    List AgentState :=
  agents.map (fun a => AgentState.new a.1 a.2.1 a.2.2 mf)

/-- One dispatcher operation of a sequential (non overlapping) call
sequence against a shared RandAgent. -/
inductive DispatcherOp where
  | promptOp (pick : Nat) (outcome : CallOutcome)
  | promptWithInfoOp (pick : Nat) (outcome : CallOutcome)
  | addAgentOp (id : Int) (provider model : String)
  | addAgentWithMaxOp (id : Int) (provider model : String) (mf : Nat)
  | resetFailuresOp
deriving DecidableEq, Repr

/-- Pool transformation of one sequential dispatcher operation. -/
def applyOp (st : List AgentState) : DispatcherOp → List AgentState
  | .promptOp pick outcome => (RandAgent.prompt st pick outcome).state
  | .promptWithInfoOp pick outcome => (RandAgent.prompt_with_info st pick outcome).state
  | .addAgentOp id p m => RandAgent.add_agent st id p m
  | .addAgentWithMaxOp id p m mf => RandAgent.add_agent_with_max_failures st id p m mf
  | .resetFailuresOp => RandAgent.reset_failures st

/-- Run a sequential call sequence. -/
def runOps (st : List AgentState) (ops : List DispatcherOp) : List AgentState :=
  ops.foldl applyOp st

/-- Every counter field of the pool is a genuine u32 value and at rest the
counter never exceeds its ceiling. -/
def RestInv (st : List AgentState) : Prop :=
  ∀ s ∈ st, s.info.failure_count ≤ s.info.max_failures ∧ s.info.max_failures < u32Mod

/-- Bound part of the rest invariant alone: ceilings are u32 values. -/
def WFBounds (st : List AgentState) : Prop :=
  ∀ s ∈ st, s.info.max_failures < u32Mod

/-- Configuration of the interleaved semantics of RandAgent: the pool, the
selected indices of the calls whose selection step already ran but whose
locked await-and-update section did not, and the log of ids passed to the
invalidation callback so far. -/
structure CConfig where
  pool : List AgentState
  pending : List Nat
  firedLog : List Int
deriving DecidableEq, Repr

/-- Atomic events of the interleaved semantics.  A RandAgent::prompt call
consists of two separately locked sections (the lock inside
get_random_valid_agent_index, and the lock that spans agent await and
counter update), so one call contributes a selectEv followed later by a
finishEv; any other events may run in between. -/
inductive CEvent where
  | selectEv (pick : Nat)
  | finishEv (k : Nat) (outcome : CallOutcome)
  | addAgentEv (id : Int) (provider model : String)
  | resetEv
deriving DecidableEq, Repr

/-- One atomic step of the interleaved semantics.  selectEv runs
get_random_valid_agent_index on the current pool; finishEv completes the
k-th pending call: on success record_success, on failure record_failure
followed by the callback exactly when the entry is no longer valid,
mirroring rand_agent.rs lines 105-118. -/
def cstep (c : CConfig) : CEvent → CConfig
  | .selectEv pick =>
    match get_random_valid_agent_index c.pool pick with
    | some i => ⟨c.pool, c.pending ++ [i], c.firedLog⟩
    | none => c
  | .finishEv k outcome =>
    if k < c.pending.length then
      let i := c.pending.getD k 0
      let s := c.pool.getD i default
      match outcome with
      | .success _ => ⟨c.pool.set i s.record_success, c.pending.eraseIdx k, c.firedLog⟩
      | .failure _ =>
        let s2 := s.record_failure
        ⟨c.pool.set i s2, c.pending.eraseIdx k,
          if s2.is_valid then c.firedLog else c.firedLog ++ [s2.id]⟩
    else c
  | .addAgentEv id p m => ⟨RandAgent.add_agent c.pool id p m, c.pending, c.firedLog⟩
  | .resetEv => ⟨RandAgent.reset_failures c.pool, c.pending, c.firedLog⟩

/-- Run an interleaving of dispatcher operations. -/
def crun (c : CConfig) (evs : List CEvent) : CConfig :=
  evs.foldl cstep c

/-- Pool of one entry with ceiling 1, as built by with_max_failures. -/
def racePool : List AgentState := RandAgent.with_max_failures [(1, "p", "m")] 1

/-- Two overlapping prompt calls against racePool: both select the single
valid entry, then both fail.  This interleaving is realisable because the
selection lock and the update lock are acquired separately. -/
def raceEvents : List CEvent :=
  [.selectEv 0, .selectEv 0,
   .finishEv 0 (.failure (.providerError "boom")),
   .finishEv 0 (.failure (.providerError "boom"))]

/-- Mirror of struct ThreadSafeAgentState (thread_safe_rand_agent.rs lines
65-71), again without the handle field. -/
structure ThreadSafeAgentState where
  provider : String
  model : String
  failure_count : Nat
  max_failures : Nat
deriving DecidableEq, Repr

/-- Mirror of ThreadSafeAgentState::new (thread_safe_rand_agent.rs lines
74-82). -/
def ThreadSafeAgentState.new (provider model : String) (mf : Nat) : ThreadSafeAgentState :=
  { provider, model, failure_count := 0, max_failures := u32 mf }

/-- Mirror of ThreadSafeRandAgent::add_agent (thread_safe_rand_agent.rs
lines 115-118): pushes a state built with the literal ceiling 3. -/
def ThreadSafeRandAgent.add_agent (st : List ThreadSafeAgentState) (provider model : String) :
    List ThreadSafeAgentState :=
  st ++ [ThreadSafeAgentState.new provider model 3]

/-- Mirror of ThreadSafeRandAgent::add_agent_with_max_failures
(thread_safe_rand_agent.rs lines 121-124). -/
def ThreadSafeRandAgent.add_agent_with_max_failures (st : List ThreadSafeAgentState)
    (provider model : String) (mf : Nat) : List ThreadSafeAgentState :=
  st ++ [ThreadSafeAgentState.new provider model mf]

/-- Pool-lock events of one dispatcher call in source order; awaitAgent is
the suspension on the selected handle. -/
inductive LockStep where
  | acquire
  | release
  | awaitAgent
deriving DecidableEq, Repr

/-- Lock depth interpreter: true when some awaitAgent event happens while
at least one pool-lock guard is alive. -/
def heldDuringAwaitGo : Nat → List LockStep → Bool
  | _, [] => false
  | depth, .acquire :: rest => heldDuringAwaitGo (depth + 1) rest
  | depth, .release :: rest => heldDuringAwaitGo (depth - 1) rest
  | depth, .awaitAgent :: rest => decide (0 < depth) || heldDuringAwaitGo depth rest

/-- Whether the pool lock is held at some await of the agent handle. -/
def heldDuringAwait (steps : List LockStep) : Bool :=
  heldDuringAwaitGo 0 steps

/-- Lock trace of RandAgent::prompt (rand_agent.rs lines 84-120): the lock
inside get_random_valid_agent_index is taken and dropped, then the guard
taken at line 96 is alive across the await at line 105 and is dropped at
the end of the function. -/
def randAgentPromptLockTrace : List LockStep :=
  [.acquire, .release, .acquire, .awaitAgent, .release]

/-- Lock trace of RandAgent::prompt_with_info (rand_agent.rs lines
364-405): same shape as RandAgent::prompt, the guard taken at line 379 is
alive across the await at line 390. -/
def randAgentPromptWithInfoLockTrace : List LockStep :=
  [.acquire, .release, .acquire, .awaitAgent, .release]

/-- Lock trace of ThreadSafeRandAgent::prompt (thread_safe_rand_agent.rs
lines 146-207): the selection scope locks and drops, the Arc clone scope
locks and drops, the await runs outside any guard, then the update scope
locks and drops. -/
def threadSafePromptLockTrace : List LockStep :=
  [.acquire, .release, .acquire, .release, .awaitAgent, .acquire, .release]

/-- Mirror of enum ProviderEnum (simple_rand_builder.rs lines 10-32);
note the source spells the Moonshot tag Mooshot. -/
inductive ProviderEnum where
  | anthropic
  | cohere
  | gemini
  | huggingface
  | mistral
  | openAi
  | openRouter
  | together
  | xai
  | azure
  | deepSeek
  | galadriel
  | groq
  | hyperbolic
  | mira
  | mooshot
  | ollama
  | perplexity
  | bigmodel
deriving DecidableEq, Repr

/-- Mirror of the strum Display derive on ProviderEnum: the variant name
exactly as written in the source. -/
def ProviderEnum.display : ProviderEnum → String
  | .anthropic => "Anthropic"
  | .cohere => "Cohere"
  | .gemini => "Gemini"
  | .huggingface => "Huggingface"
  | .mistral => "Mistral"
  | .openAi => "OpenAi"
  | .openRouter => "OpenRouter"
  | .together => "Together"
  | .xai => "XAI"
  | .azure => "Azure"
  | .deepSeek => "DeepSeek"
  | .galadriel => "Galadriel"
  | .groq => "Groq"
  | .hyperbolic => "Hyperbolic"
  | .mira => "Mira"
  | .mooshot => "Mooshot"
  | .ollama => "Ollama"
  | .perplexity => "Perplexity"
  | .bigmodel => "Bigmodel"

/-- Mirror of struct AgentConfig (simple_rand_builder.rs lines 34-43). -/
structure AgentConfig where
  id : Int
  provider : ProviderEnum
  model_name : String
  api_key : String
  api_base_url : Option String
  system_prompt : Option String
  agent_name : Option String
deriving DecidableEq, Repr

/-- Entry pushed onto the builder by simple_builder, with the opaque
handle dropped: (id, provider.to_string(), model_name). -/
abbrev BuilderEntry : Type := Int × String × String

/-- Processing of one AgentConfig by simple_builder (simple_rand_builder.rs
lines 52-374), arm by arm in source order.  buildOk is the oracle for
whether the fallible client construction (builder.build() for Anthropic,
Gemini, OpenAi, OpenRouter, Ollama) succeeds for this config; an Err arm
only logs and pushes nothing, as do the Azure and Perplexity arms. -/
def simpleBuilderPush (buildOk : AgentConfig → Bool) (acc : List BuilderEntry)
    (cfg : AgentConfig) : List BuilderEntry :=
  match cfg.provider with
  | .anthropic =>
    if buildOk cfg then acc ++ [(cfg.id, ProviderEnum.display .anthropic, cfg.model_name)] else acc
  | .cohere => acc ++ [(cfg.id, ProviderEnum.display .cohere, cfg.model_name)]
  | .gemini =>
    if buildOk cfg then acc ++ [(cfg.id, ProviderEnum.display .gemini, cfg.model_name)] else acc
  | .huggingface => acc ++ [(cfg.id, ProviderEnum.display .huggingface, cfg.model_name)]
  | .mistral => acc ++ [(cfg.id, ProviderEnum.display .mistral, cfg.model_name)]
  | .openAi =>
    if buildOk cfg then acc ++ [(cfg.id, ProviderEnum.display .openAi, cfg.model_name)] else acc
  | .openRouter =>
    if buildOk cfg then acc ++ [(cfg.id, ProviderEnum.display .openRouter, cfg.model_name)] else acc
  | .together => acc ++ [(cfg.id, ProviderEnum.display .together, cfg.model_name)]
  | .xai => acc ++ [(cfg.id, ProviderEnum.display .xai, cfg.model_name)]
  | .azure => acc
  | .deepSeek => acc ++ [(cfg.id, ProviderEnum.display .deepSeek, cfg.model_name)]
  | .galadriel => acc ++ [(cfg.id, ProviderEnum.display .galadriel, cfg.model_name)]
  | .groq => acc ++ [(cfg.id, ProviderEnum.display .groq, cfg.model_name)]
  | .hyperbolic => acc ++ [(cfg.id, ProviderEnum.display .hyperbolic, cfg.model_name)]
  | .mira => acc ++ [(cfg.id, ProviderEnum.display .mira, cfg.model_name)]
  | .mooshot => acc ++ [(cfg.id, ProviderEnum.display .mooshot, cfg.model_name)]
  | .ollama =>
    if buildOk cfg then acc ++ [(cfg.id, ProviderEnum.display .ollama, cfg.model_name)] else acc
  | .perplexity => acc
  | .bigmodel => acc ++ [(cfg.id, ProviderEnum.display .bigmodel, cfg.model_name)]

/-- Mirror of RandAgentBuilder::simple_builder (simple_rand_builder.rs
lines 47-376): fold over the configs, pushing onto the agents already in
the builder.  The global system prompt only flows into the dropped
handles, so it is carried but unused. -/
def RandAgentBuilder.simple_builder (buildOk : AgentConfig → Bool)
    (agents : List BuilderEntry) (agent_configs : List AgentConfig)
    (_global_system_prompt : String) : List BuilderEntry :=
  agent_configs.foldl (simpleBuilderPush buildOk) agents

/-- Providers whose simple_builder arm calls a fallible builder.build(). -/
def fallibleProvider : ProviderEnum → Bool
  | .anthropic => true
  | .gemini => true
  | .openAi => true
  | .openRouter => true
  | .ollama => true
  | _ => false

/-- Modelled from the claim wording, to be compared with the source fold:
an Azure or Perplexity config, or one whose client construction fails,
contributes nothing; every other config contributes exactly one entry. -/
def claimedEntry (buildOk : AgentConfig → Bool) (cfg : AgentConfig) : Option BuilderEntry :=
  if cfg.provider = .azure ∨ cfg.provider = .perplexity then none
  else if fallibleProvider cfg.provider ∧ ¬ buildOk cfg then none
  else some (cfg.id, cfg.provider.display, cfg.model_name)

/-- Left-to-right non overlapping replacement of a non empty pattern,
mirroring the semantics of Rust str::replace. -/
def matchesAt : List Char → List Char → Bool
  | [], _ => true
  | _ :: _, [] => false
  | p :: ps, c :: cs => p = c && matchesAt ps cs

/-- Fuel-driven worker for the replacement; the fuel is the length of the
input, which every step strictly consumes. -/
def rustReplaceAux : Nat → List Char → List Char → List Char → List Char
  | 0, s, _, _ => s
  | fuel + 1, s, pat, rep =>
    match s with
    | [] => []
    | c :: rest =>
      if pat ≠ [] && matchesAt pat s then
        rep ++ rustReplaceAux fuel (s.drop pat.length) pat rep
      else
        c :: rustReplaceAux fuel rest pat rep

/-- Mirror of Rust str::replace for the string shapes used by the
bigmodel client. -/
def rustReplace (s pat rep : String) : String :=
  String.mk (rustReplaceAux s.data.length s.data pat.data rep.data)

/-- Mirror of BIGMODEL_API_BASE_URL (bigmodel.rs line 19). -/
def BIGMODEL_API_BASE_URL : String := "https://open.bigmodel.cn/api/paas/v4/"

/-- Mirror of Client::post (bigmodel.rs lines 53-56): the request URL is
format base slash path with every double slash collapsed once from the
left. -/
def bigmodelPostUrl (base_url path : String) : String :=
  rustReplace (base_url ++ "/" ++ path) "//" "/"

/-- URL used by CompletionModel::completion and stream (bigmodel.rs lines
503 and 536): post with path /chat/completions. -/
def bigmodelCompletionUrl (base_url : String) : String :=
  bigmodelPostUrl base_url "/chat/completions"

/-- Selection oracle of the op, when the op is one of the two prompt
entry points. -/
def selectedIndex (st : List AgentState) : DispatcherOp → Option Nat
  | .promptOp pick _ => get_random_valid_agent_index st pick
  | .promptWithInfoOp pick _ => get_random_valid_agent_index st pick
  | _ => none

/-- Along a sequential call sequence, no prompt-style op ever selects
index i. -/
def neverSelects (i : Nat) : List AgentState → List DispatcherOp → Prop
  | _, [] => True
  | st, op :: rest => selectedIndex st op ≠ some i ∧ neverSelects i (applyOp st op) rest

/-- Initial configuration for the interleaved runs: racePool, nothing
pending, no callback fired yet. -/
def raceInit : CConfig := ⟨racePool, [], []⟩

/-- Concrete all-invalid pool: one entry whose counter sits at its
ceiling. -/
def invalidPool : List AgentState :=
  [⟨2, ⟨2, "openai", "gpt-4o", 3, 3⟩⟩]

/-- Concrete pool whose single entry carries two recorded failures below a
ceiling of three; reachable from a fresh pool by two failing prompts. -/
def snapshotPool : List AgentState :=
  [⟨7, ⟨7, "bigmodel", "glm-4-flash", 2, 3⟩⟩]

/-- Concrete two-entry pool with ceiling 2 for the sequential runs. -/
def demoPool : List AgentState :=
  RandAgent.with_max_failures [(1, "bigmodel", "glm-4-flash"), (2, "openai", "gpt-4o")] 2

/-- Concrete sequential call sequence exercising every operation kind. -/
def demoOps : List DispatcherOp :=
  [.promptOp 0 (.failure (.providerError "e1")),
   .promptOp 1 (.success "ok"),
   .promptWithInfoOp 3 (.failure (.transportError "t")),
   .resetFailuresOp,
   .addAgentOp 3 "cohere" "command"]

/-- Concrete pool whose first entry has reached its ceiling while the
second entry is valid. -/
def haltedPool : List AgentState :=
  [⟨1, ⟨1, "p", "m", 2, 2⟩⟩, AgentState.new 2 "q" "n" 2]

/-- Concrete reset-free call sequence against haltedPool. -/
def haltedOps : List DispatcherOp :=
  [.promptOp 0 (.failure (.providerError "e")),
   .promptOp 4 (.success "ok"),
   .addAgentOp 3 "r" "k"]

instance (st : List AgentState) : Decidable (WFBounds st) := by
  unfold WFBounds
  infer_instance

instance (st : List AgentState) : Decidable (RestInv st) := by
  unfold RestInv
  infer_instance

lemma mem_validIndices (st : List AgentState) (i : Nat) :
    i ∈ validIndices st ↔ ∃ s, st[i]? = some s ∧ s.is_valid = true := by
  unfold validIndices
  constructor
  · intro h
    rcases List.mem_map.mp h with ⟨p, hp, hpi⟩
    rcases List.mem_filter.mp hp with ⟨henum, hvalid⟩
    refine ⟨p.2, ?_, hvalid⟩
    have hpair : (i, p.2) ∈ st.enum := by
      have : (p.1, p.2) = p := rfl
      rw [hpi] at this
      rw [this]
      exact henum
    exact List.mk_mem_enum_iff_getElem?.mp hpair
  · rintro ⟨s, hs, hv⟩
    refine List.mem_map.mpr ⟨(i, s), List.mem_filter.mpr ⟨?_, hv⟩, rfl⟩
    exact List.mk_mem_enum_iff_getElem?.mpr hs

lemma validIndices_nil_of_all_invalid (st : List AgentState)
    (h : ∀ s ∈ st, s.is_valid = false) : validIndices st = [] := by
  rw [List.eq_nil_iff_forall_not_mem]
  intro i hi
  rcases (mem_validIndices st i).mp hi with ⟨s, hs, hv⟩
  have hmem : s ∈ st := List.getElem?_mem hs
  rw [h s hmem] at hv
  cases hv

lemma sel_mem_validIndices (st : List AgentState) (pick i : Nat)
    (h : get_random_valid_agent_index st pick = some i) : i ∈ validIndices st := by
  unfold get_random_valid_agent_index at h
  by_cases hlen : (validIndices st).length = 0
  · simp [hlen] at h
  · simp only [hlen, if_false] at h
    have hlt : pick % (validIndices st).length < (validIndices st).length :=
      Nat.mod_lt _ (Nat.pos_of_ne_zero hlen)
    rw [List.getD_eq_getElem?_getD, List.getElem?_eq_getElem hlt, Option.getD_some] at h
    rw [← Option.some.inj h]
    exact List.getElem_mem hlt

lemma sel_some_spec (st : List AgentState) (pick i : Nat)
    (h : get_random_valid_agent_index st pick = some i) :
    ∃ s, st[i]? = some s ∧ s.is_valid = true :=
  (mem_validIndices st i).mp (sel_mem_validIndices st pick i h)

lemma getD_of_getElem? {st : List AgentState} {i : Nat} {s : AgentState}
    (h : st[i]? = some s) : st.getD i default = s := by
  rw [List.getD_eq_getElem?_getD, h]
  rfl

lemma lt_length_of_getElem? {st : List AgentState} {i : Nat} {s : AgentState}
    (h : st[i]? = some s) : i < st.length := by
  rcases List.getElem?_eq_some_iff.mp h with ⟨hlt, _⟩
  exact hlt

lemma is_valid_iff (s : AgentState) :
    s.is_valid = true ↔ s.info.failure_count < s.info.max_failures := by
  simp [AgentState.is_valid]

lemma sel_of_no_valid (st : List AgentState) (pick : Nat)
    (h : ∀ s ∈ st, s.is_valid = false) : get_random_valid_agent_index st pick = none := by
  unfold get_random_valid_agent_index
  rw [validIndices_nil_of_all_invalid st h]
  rfl

lemma prompt_sel_none (st : List AgentState) (pick : Nat) (o : CallOutcome)
    (h : get_random_valid_agent_index st pick = none) :
    RandAgent.prompt st pick o = ⟨.error noValidAgentError, st, none⟩ := by
  unfold RandAgent.prompt
  rw [h]

lemma prompt_sel_success (st : List AgentState) (pick i : Nat) (c : String)
    (h : get_random_valid_agent_index st pick = some i) :
    RandAgent.prompt st pick (.success c) =
      ⟨.ok c, st.set i (st.getD i default).record_success, none⟩ := by
  unfold RandAgent.prompt
  rw [h]

lemma prompt_sel_failure (st : List AgentState) (pick i : Nat) (e : PromptError)
    (h : get_random_valid_agent_index st pick = some i) :
    RandAgent.prompt st pick (.failure e) =
      ⟨.error e, st.set i (st.getD i default).record_failure,
        if (st.getD i default).record_failure.is_valid then none
        else some (st.getD i default).record_failure.id⟩ := by
  unfold RandAgent.prompt
  rw [h]

lemma pwi_sel_none (st : List AgentState) (pick : Nat) (o : CallOutcome)
    (h : get_random_valid_agent_index st pick = none) :
    RandAgent.prompt_with_info st pick o = ⟨.error noValidAgentError, st, none⟩ := by
  unfold RandAgent.prompt_with_info
  rw [h]

lemma pwi_sel_success (st : List AgentState) (pick i : Nat) (c : String)
    (h : get_random_valid_agent_index st pick = some i) :
    RandAgent.prompt_with_info st pick (.success c) =
      ⟨.ok (c, (st.getD i default).info), st.set i (st.getD i default).record_success, none⟩ := by
  unfold RandAgent.prompt_with_info
  rw [h]

lemma pwi_sel_failure (st : List AgentState) (pick i : Nat) (e : PromptError)
    (h : get_random_valid_agent_index st pick = some i) :
    RandAgent.prompt_with_info st pick (.failure e) =
      ⟨.error e, st.set i (st.getD i default).record_failure,
        if (st.getD i default).record_failure.is_valid then none
        else some (st.getD i default).record_failure.id⟩ := by
  unfold RandAgent.prompt_with_info
  rw [h]

lemma promptWithInfo_state_eq (st : List AgentState) (pick : Nat) (o : CallOutcome) :
    (RandAgent.prompt_with_info st pick o).state = (RandAgent.prompt st pick o).state := by
  cases hsel : get_random_valid_agent_index st pick with
  | none => rw [prompt_sel_none st pick o hsel, pwi_sel_none st pick o hsel]
  | some i =>
    cases o with
    | success c => rw [prompt_sel_success st pick i c hsel, pwi_sel_success st pick i c hsel]
    | failure e => rw [prompt_sel_failure st pick i e hsel, pwi_sel_failure st pick i e hsel]

lemma promptWithInfo_fired_eq (st : List AgentState) (pick : Nat) (o : CallOutcome) :
    (RandAgent.prompt_with_info st pick o).fired = (RandAgent.prompt st pick o).fired := by
  cases hsel : get_random_valid_agent_index st pick with
  | none => rw [prompt_sel_none st pick o hsel, pwi_sel_none st pick o hsel]
  | some i =>
    cases o with
    | success c => rw [prompt_sel_success st pick i c hsel, pwi_sel_success st pick i c hsel]
    | failure e => rw [prompt_sel_failure st pick i e hsel, pwi_sel_failure st pick i e hsel]

lemma restInv_set (st : List AgentState) (i : Nat) (x : AgentState) (h : RestInv st)
    (hx : x.info.failure_count ≤ x.info.max_failures ∧ x.info.max_failures < u32Mod) :
    RestInv (st.set i x) := by
  intro s hs
  rcases List.mem_or_eq_of_mem_set hs with hmem | he
  · exact h s hmem
  · rw [he]
    exact hx

lemma restInv_prompt_state (st : List AgentState) (pick : Nat) (o : CallOutcome)
    (h : RestInv st) : RestInv (RandAgent.prompt st pick o).state := by
  cases hsel : get_random_valid_agent_index st pick with
  | none =>
    rw [prompt_sel_none st pick o hsel]
    exact h
  | some i =>
    obtain ⟨s, hs, hv⟩ := sel_some_spec st pick i hsel
    have hgd : st.getD i default = s := getD_of_getElem? hs
    obtain ⟨hle, hmax⟩ := h s (List.getElem?_mem hs)
    have hvp : s.info.failure_count < s.info.max_failures := (is_valid_iff s).mp hv
    cases o with
    | success c =>
      rw [prompt_sel_success st pick i c hsel, hgd]
      exact restInv_set st i _ h ⟨Nat.zero_le _, hmax⟩
    | failure e =>
      rw [prompt_sel_failure st pick i e hsel, hgd]
      apply restInv_set st i _ h
      have hlt : s.info.failure_count + 1 < u32Mod :=
        lt_of_le_of_lt (Nat.succ_le_of_lt hvp) hmax
      refine ⟨?_, hmax⟩
      show u32 (s.info.failure_count + 1) ≤ s.info.max_failures
      rw [u32, Nat.mod_eq_of_lt hlt]
      exact Nat.succ_le_of_lt hvp

lemma u32Mod_pos : 0 < u32Mod := by decide

lemma restInv_applyOp (st : List AgentState) (op : DispatcherOp) (h : RestInv st) :
    RestInv (applyOp st op) := by
  cases op with
  | promptOp pick o => exact restInv_prompt_state st pick o h
  | promptWithInfoOp pick o =>
    show RestInv (RandAgent.prompt_with_info st pick o).state
    rw [promptWithInfo_state_eq]
    exact restInv_prompt_state st pick o h
  | addAgentOp id p m =>
    intro s hs
    rcases List.mem_append.mp hs with hmem | Hnew
    · exact h s hmem
    · rw [List.mem_singleton.mp Hnew]
      exact ⟨Nat.zero_le _, Nat.mod_lt _ u32Mod_pos⟩
  | addAgentWithMaxOp id p m mf =>
    intro s hs
    rcases List.mem_append.mp hs with hmem | Hnew
    · exact h s hmem
    · rw [List.mem_singleton.mp Hnew]
      exact ⟨Nat.zero_le _, Nat.mod_lt _ u32Mod_pos⟩
  | resetFailuresOp =>
    intro s hs
    rcases List.mem_map.mp hs with ⟨t, ht, he⟩
    rw [← he]
    exact ⟨Nat.zero_le _, (h t ht).2⟩

lemma sel_ne_of_invalid (st : List AgentState) (pick i : Nat)
    (hinv : (st.getD i default).is_valid = false) :
    get_random_valid_agent_index st pick ≠ some i := by
  intro hsel
  obtain ⟨s, hs, hv⟩ := sel_some_spec st pick i hsel
  rw [getD_of_getElem? hs] at hinv
  rw [hinv] at hv
  cases hv

lemma prompt_untouched (st : List AgentState) (pick : Nat) (o : CallOutcome) (i : Nat)
    (hne : get_random_valid_agent_index st pick ≠ some i) :
    (RandAgent.prompt st pick o).state.getD i default = st.getD i default ∧
    (RandAgent.prompt st pick o).state.length = st.length := by
  cases hsel : get_random_valid_agent_index st pick with
  | none =>
    rw [prompt_sel_none st pick o hsel]
    exact ⟨rfl, rfl⟩
  | some j =>
    have hji : j ≠ i := fun he => hne (he ▸ hsel)
    cases o with
    | success c =>
      rw [prompt_sel_success st pick j c hsel]
      refine ⟨?_, by simp⟩
      rw [List.getD_eq_getElem?_getD, List.getD_eq_getElem?_getD, List.getElem?_set_ne hji]
      rw [← List.getD_eq_getElem?_getD]
    | failure e =>
      rw [prompt_sel_failure st pick j e hsel]
      refine ⟨?_, by simp⟩
      rw [List.getD_eq_getElem?_getD, List.getD_eq_getElem?_getD, List.getElem?_set_ne hji]
      rw [← List.getD_eq_getElem?_getD]

lemma applyOp_preserves_invalid (st : List AgentState) (op : DispatcherOp) (i : Nat)
    (hlen : i < st.length) (hinv : (st.getD i default).is_valid = false)
    (hnr : op ≠ DispatcherOp.resetFailuresOp) :
    i < (applyOp st op).length ∧ ((applyOp st op).getD i default).is_valid = false := by
  cases op with
  | promptOp pick o =>
    obtain ⟨hgd, hl⟩ := prompt_untouched st pick o i (sel_ne_of_invalid st pick i hinv)
    constructor
    · show i < (RandAgent.prompt st pick o).state.length
      rw [hl]
      exact hlen
    · show ((RandAgent.prompt st pick o).state.getD i default).is_valid = false
      rw [hgd]
      exact hinv
  | promptWithInfoOp pick o =>
    obtain ⟨hgd, hl⟩ := prompt_untouched st pick o i (sel_ne_of_invalid st pick i hinv)
    constructor
    · show i < (RandAgent.prompt_with_info st pick o).state.length
      rw [promptWithInfo_state_eq, hl]
      exact hlen
    · show ((RandAgent.prompt_with_info st pick o).state.getD i default).is_valid = false
      rw [promptWithInfo_state_eq, hgd]
      exact hinv
  | addAgentOp id p m =>
    constructor
    · show i < (st ++ [AgentState.new id p m 3]).length
      simp only [List.length_append, List.length_singleton]
      omega
    · show ((st ++ [AgentState.new id p m 3]).getD i default).is_valid = false
      rw [List.getD_eq_getElem?_getD, List.getElem?_append_left hlen,
        ← List.getD_eq_getElem?_getD]
      exact hinv
  | addAgentWithMaxOp id p m mf =>
    constructor
    · show i < (st ++ [AgentState.new id p m mf]).length
      simp only [List.length_append, List.length_singleton]
      omega
    · show ((st ++ [AgentState.new id p m mf]).getD i default).is_valid = false
      rw [List.getD_eq_getElem?_getD, List.getElem?_append_left hlen,
        ← List.getD_eq_getElem?_getD]
      exact hinv
  | resetFailuresOp => exact absurd rfl hnr

lemma neverSelects_of_invalid : ∀ (ops : List DispatcherOp) (st : List AgentState) (i : Nat),
    i < st.length → (st.getD i default).is_valid = false →
    DispatcherOp.resetFailuresOp ∉ ops → neverSelects i st ops := by
  intro ops
  induction ops with
  | nil =>
    intro st i _ _ _
    trivial
  | cons op rest ih =>
    intro st i hlen hinv hmem
    have hop : op ≠ DispatcherOp.resetFailuresOp := fun he => hmem (he ▸ List.mem_cons_self op rest)
    have hrest : DispatcherOp.resetFailuresOp ∉ rest := fun hr => hmem (List.mem_cons_of_mem _ hr)
    refine ⟨?_, ?_⟩
    · cases op with
      | promptOp pick o => exact sel_ne_of_invalid st pick i hinv
      | promptWithInfoOp pick o => exact sel_ne_of_invalid st pick i hinv
      | addAgentOp id p m => simp [selectedIndex]
      | addAgentWithMaxOp id p m mf => simp [selectedIndex]
      | resetFailuresOp => simp [selectedIndex]
    · obtain ⟨hl2, hi2⟩ := applyOp_preserves_invalid st op i hlen hinv hop
      exact ih (applyOp st op) i hl2 hi2 hrest

lemma simpleBuilderPush_eq (buildOk : AgentConfig → Bool) (acc : List BuilderEntry)
    (cfg : AgentConfig) :
    simpleBuilderPush buildOk acc cfg = acc ++ (claimedEntry buildOk cfg).toList := by
  cases hp : cfg.provider
  all_goals by_cases hb : buildOk cfg <;>
    simp [simpleBuilderPush, claimedEntry, fallibleProvider, hp, hb]

lemma simple_builder_eq (buildOk : AgentConfig → Bool) (gsp : String) :
    ∀ (configs : List AgentConfig) (agents : List BuilderEntry),
    RandAgentBuilder.simple_builder buildOk agents configs gsp =
      agents ++ configs.filterMap (claimedEntry buildOk) := by
  intro configs
  induction configs with
  | nil =>
    intro agents
    simp [RandAgentBuilder.simple_builder]
  | cons cfg rest ih =>
    intro agents
    show RandAgentBuilder.simple_builder buildOk (simpleBuilderPush buildOk agents cfg) rest gsp = _
    rw [ih (simpleBuilderPush buildOk agents cfg), simpleBuilderPush_eq]
    cases hc : claimedEntry buildOk cfg <;> simp [List.filterMap_cons, hc]

lemma u32_three : u32 3 = 3 := by decide

lemma sel_entry_valid (st : List AgentState) (pick i : Nat)
    (hsel : get_random_valid_agent_index st pick = some i) :
    (st.getD i default).info.failure_count < (st.getD i default).info.max_failures := by
  obtain ⟨s, hs, hv⟩ := sel_some_spec st pick i hsel
  rw [getD_of_getElem? hs]
  exact (is_valid_iff s).mp hv

lemma record_failure_count_of_lt (s : AgentState) (h : s.info.failure_count + 1 < u32Mod) :
    s.record_failure.info.failure_count = s.info.failure_count + 1 := by
  show u32 (s.info.failure_count + 1) = s.info.failure_count + 1
  rw [u32, Nat.mod_eq_of_lt h]

lemma prompt_fired_iff (st : List AgentState) (pick i : Nat) (err : PromptError)
    (hwf : WFBounds st) (hsel : get_random_valid_agent_index st pick = some i) :
    ((RandAgent.prompt st pick (.failure err)).fired = some (st.getD i default).id ↔
      (st.getD i default).info.failure_count + 1 = (st.getD i default).info.max_failures) := by
  obtain ⟨s, hs, hv⟩ := sel_some_spec st pick i hsel
  have hgd : st.getD i default = s := getD_of_getElem? hs
  have hmax : s.info.max_failures < u32Mod := hwf s (List.getElem?_mem hs)
  have hvp : s.info.failure_count < s.info.max_failures := (is_valid_iff s).mp hv
  have hlt : s.info.failure_count + 1 < u32Mod := lt_of_le_of_lt (Nat.succ_le_of_lt hvp) hmax
  have hcount := record_failure_count_of_lt s hlt
  rw [prompt_sel_failure st pick i err hsel, hgd]
  show (if s.record_failure.is_valid then none else some s.record_failure.id) = some s.id ↔
    s.info.failure_count + 1 = s.info.max_failures
  by_cases hval : s.record_failure.is_valid = true
  · rw [if_pos hval]
    have h2 := (is_valid_iff s.record_failure).mp hval
    rw [hcount] at h2
    have h3 : s.info.failure_count + 1 < s.info.max_failures := h2
    constructor
    · intro hno
      cases hno
    · intro heq
      omega
  · rw [if_neg hval]
    have h2 : ¬ s.record_failure.info.failure_count < s.record_failure.info.max_failures :=
      fun hh => hval ((is_valid_iff s.record_failure).mpr hh)
    rw [hcount] at h2
    have h3 : ¬ s.info.failure_count + 1 < s.info.max_failures := h2
    constructor
    · intro _
      omega
    · intro _
      rfl

/-- Claim C1, counterexample to the stated prompt text: on the empty pool
the returned error carries the source literal 没有有效agent, not the text
claimed in the specification, so the result is not equal to a MaxDepth
error whose prompt field reads no valid agent. -/
theorem c1_counterexample :
    (RandAgent.prompt [] 0 (.success "hi")).result ≠
      Except.error (.maxDepthError 0 [] "no valid agent") := by
  decide

/-- Claim C1 (amended): for every pool that is empty or contains no valid
entry, RandAgent::prompt returns the MaxDepth error with depth 0, an
empty history and the prompt text 没有有效agent (the source literal,
whose English reading is: no valid agent), leaving the pool untouched and
firing no callback. -/
theorem c1_theorem : ∀ (st : List AgentState) (pick : Nat) (outcome : CallOutcome),
    (∀ s ∈ st, s.is_valid = false) →
    RandAgent.prompt st pick outcome =
      ⟨.error (.maxDepthError 0 [] "没有有效agent"), st, none⟩ := by
  intro st pick outcome h
  exact prompt_sel_none st pick outcome (sel_of_no_valid st pick h)

/-- Claim C1 witness: c1_theorem applied to a concrete pool whose only
entry sits at its ceiling. -/
theorem c1_witness :
    RandAgent.prompt invalidPool 5 (.failure (.providerError "boom")) =
      ⟨.error (.maxDepthError 0 [] "没有有效agent"), invalidPool, none⟩ :=
  c1_theorem invalidPool 5 (.failure (.providerError "boom")) (by decide)

/-- Claim C2: for a sequence of dispatcher calls (calls that do not
overlap, as a sequence of calls runs them one after another), a selected
entry always has a pre-update counter strictly below its ceiling, a
failing call fires the invalidation callback with the entry id exactly
when that failure moves the counter from below the ceiling to exactly the
ceiling (so at most once per valid-to-invalid transition, and never for a
pre-update counter at or above the ceiling, which no sequential update
exhibits), and a successful call never fires it.  Both prompt entry
points behave identically. -/
theorem c2_theorem : ∀ (st : List AgentState) (pick i : Nat) (err : PromptError) (c : String),
    WFBounds st → get_random_valid_agent_index st pick = some i →
    (st.getD i default).info.failure_count < (st.getD i default).info.max_failures ∧
    ((RandAgent.prompt st pick (.failure err)).fired = some (st.getD i default).id ↔
      (st.getD i default).info.failure_count + 1 = (st.getD i default).info.max_failures) ∧
    ((RandAgent.prompt_with_info st pick (.failure err)).fired = some (st.getD i default).id ↔
      (st.getD i default).info.failure_count + 1 = (st.getD i default).info.max_failures) ∧
    (RandAgent.prompt st pick (.success c)).fired = none := by
  intro st pick i err c hwf hsel
  refine ⟨sel_entry_valid st pick i hsel, prompt_fired_iff st pick i err hwf hsel, ?_, ?_⟩
  · rw [promptWithInfo_fired_eq]
    exact prompt_fired_iff st pick i err hwf hsel
  · rw [prompt_sel_success st pick i c hsel]

/-- Claim C2 witness: c2_theorem applied to the one-entry pool with
ceiling 1, where the first failure is exactly the transition. -/
theorem c2_witness :
    (racePool.getD 0 default).info.failure_count < (racePool.getD 0 default).info.max_failures ∧
    ((RandAgent.prompt racePool 0 (.failure (.providerError "boom"))).fired =
        some (racePool.getD 0 default).id ↔
      (racePool.getD 0 default).info.failure_count + 1 =
        (racePool.getD 0 default).info.max_failures) ∧
    ((RandAgent.prompt_with_info racePool 0 (.failure (.providerError "boom"))).fired =
        some (racePool.getD 0 default).id ↔
      (racePool.getD 0 default).info.failure_count + 1 =
        (racePool.getD 0 default).info.max_failures) ∧
    (RandAgent.prompt racePool 0 (.success "ok")).fired = none :=
  c2_theorem racePool 0 0 (.providerError "boom") "ok" (by decide) (by decide)

/-- Claim C3, counterexample under interleaving: two overlapping prompt
calls both select the single entry of racePool (ceiling 1) while it is
still valid; after both fail, its counter is 2, strictly above its
ceiling, so the claimed bound does not hold in every reachable state. -/
theorem c3_counterexample :
    ((crun raceInit raceEvents).pool.getD 0 default).info.max_failures <
      ((crun raceInit raceEvents).pool.getD 0 default).info.failure_count := by
  decide

/-- Claim C3 (amended): in every state reachable by a sequence of
non-overlapping dispatcher operations from a pool satisfying the rest
invariant, every entry satisfies failure_count at most max_failures (the
lower bound 0 is inherent to the counter type); an interleaving of
overlapping prompt calls can exceed the ceiling, as c3_counterexample
shows. -/
theorem c3_theorem : ∀ (ops : List DispatcherOp) (st : List AgentState),
    RestInv st → RestInv (runOps st ops) := by
  intro ops
  induction ops with
  | nil =>
    intro st h
    exact h
  | cons op rest ih =>
    intro st h
    exact ih (applyOp st op) (restInv_applyOp st op h)

/-- Claim C3 witness: c3_theorem applied to a concrete pool and a concrete
call sequence exercising every operation kind. -/
theorem c3_witness : RestInv (runOps demoPool demoOps) :=
  c3_theorem demoOps demoPool (by decide)

/-- Claim C4, counterexample: in RandAgent::prompt the pool lock acquired
after selection is still held when the selected handle is awaited, so the
claim that the lock is released before every awaited call is false for
this entry point. -/
theorem c4_counterexample : heldDuringAwait randAgentPromptLockTrace = true := by
  decide

/-- Claim C4 (amended): ThreadSafeRandAgent::prompt releases the pool
lock before awaiting the selected handle, holding it only for selection,
for the handle clone and for the counter update; but RandAgent::prompt
and RandAgent::prompt_with_info hold the pool lock across the awaited
call, releasing only the separate selection lock beforehand. -/
theorem c4_theorem :
    heldDuringAwait threadSafePromptLockTrace = false ∧
    heldDuringAwait randAgentPromptLockTrace = true ∧
    heldDuringAwait randAgentPromptWithInfoLockTrace = true := by
  decide

/-- Claim C5: a dispatcher call answered successfully by an entry sets
that entry counter to 0, whatever its prior value, through either prompt
entry point. -/
theorem c5_theorem : ∀ (st : List AgentState) (pick i : Nat) (c : String),
    get_random_valid_agent_index st pick = some i →
    ((RandAgent.prompt st pick (.success c)).state.getD i default).info.failure_count = 0 ∧
    ((RandAgent.prompt_with_info st pick (.success c)).state.getD i default).info.failure_count
      = 0 := by
  intro st pick i c hsel
  obtain ⟨s, hs, _⟩ := sel_some_spec st pick i hsel
  have hlen : i < st.length := lt_length_of_getElem? hs
  have hset : (st.set i (st.getD i default).record_success).getD i default =
      (st.getD i default).record_success := by
    rw [List.getD_eq_getElem?_getD, List.getElem?_set_self hlen, Option.getD_some]
  constructor
  · rw [prompt_sel_success st pick i c hsel]
    show ((st.set i (st.getD i default).record_success).getD i default).info.failure_count = 0
    rw [hset]
    rfl
  · rw [pwi_sel_success st pick i c hsel]
    show ((st.set i (st.getD i default).record_success).getD i default).info.failure_count = 0
    rw [hset]
    rfl

/-- Claim C5 witness: c5_theorem applied to a pool whose selected entry
already carries two failures, confirming the counter drops to 0. -/
theorem c5_witness :
    ((RandAgent.prompt snapshotPool 0 (.success "ok")).state.getD 0 default).info.failure_count
      = 0 ∧
    ((RandAgent.prompt_with_info snapshotPool 0
        (.success "ok")).state.getD 0 default).info.failure_count = 0 :=
  c5_theorem snapshotPool 0 0 "ok" (by decide)

/-- Claim C6: along any sequence of non-overlapping dispatcher calls that
contains no reset_failures, an entry whose counter has reached or
exceeded its ceiling is never selected by any prompt-style call. -/
theorem c6_theorem : ∀ (ops : List DispatcherOp) (st : List AgentState) (i : Nat),
    i < st.length →
    (st.getD i default).info.max_failures ≤ (st.getD i default).info.failure_count →
    DispatcherOp.resetFailuresOp ∉ ops → neverSelects i st ops := by
  intro ops st i hlen hge hnr
  apply neverSelects_of_invalid ops st i hlen ?_ hnr
  cases hval : (st.getD i default).is_valid
  · rfl
  · exact absurd ((is_valid_iff _).mp hval) (Nat.not_lt.mpr hge)

/-- Claim C6 witness: c6_theorem applied to haltedPool, whose first entry
sits at its ceiling, and a reset-free call sequence. -/
theorem c6_witness : neverSelects 0 haltedPool haltedOps :=
  c6_theorem haltedOps haltedPool 0 (by decide) (by decide) (by decide)

/-- Claim C7: simple_builder is total and equals, for every construction
oracle, starting agent list, config list and global system prompt, the
input-order filterMap of claimedEntry: an Azure or Perplexity config, or
a config of a fallible provider whose client construction fails,
contributes no entry, and every other config contributes exactly the one
entry (id, provider display name, model name). -/
theorem c7_theorem : ∀ (buildOk : AgentConfig → Bool) (gsp : String)
    (agents : List BuilderEntry) (configs : List AgentConfig),
    RandAgentBuilder.simple_builder buildOk agents configs gsp =
      agents ++ configs.filterMap (claimedEntry buildOk) := by
  intro buildOk gsp agents configs
  exact simple_builder_eq buildOk gsp configs agents

/-- Claim C8: evaluation of the Client::post URL computation at the
default base URL and the path /chat/completions.  The replace of double
slashes also collapses the scheme separator and leaves one duplicated
slash from the join, so the computed URL is
https:/open.bigmodel.cn/api/paas/v4//chat/completions and differs from
the URL the specification states. -/
theorem c8_theorem :
    bigmodelCompletionUrl BIGMODEL_API_BASE_URL =
      "https:/open.bigmodel.cn/api/paas/v4//chat/completions" ∧
    bigmodelCompletionUrl BIGMODEL_API_BASE_URL ≠
      "https://open.bigmodel.cn/api/paas/v4/chat/completions" := by
  decide

/-- Claim C9: RandAgent::add_agent and ThreadSafeRandAgent::add_agent
append, for every current pool whatever ceiling it was built with, an
entry whose ceiling is the literal 3; only the add_agent_with_max_failures
variants append an entry with a caller-chosen ceiling. -/
theorem c9_theorem : ∀ (st : List AgentState) (st2 : List ThreadSafeAgentState) (id : Int)
    (p m : String) (mf : Nat),
    RandAgent.add_agent st id p m = st ++ [AgentState.new id p m 3] ∧
    (AgentState.new id p m 3).info.max_failures = 3 ∧
    RandAgent.add_agent_with_max_failures st id p m mf = st ++ [AgentState.new id p m mf] ∧
    ThreadSafeRandAgent.add_agent st2 p m = st2 ++ [ThreadSafeAgentState.new p m 3] ∧
    (ThreadSafeAgentState.new p m 3).max_failures = 3 ∧
    ThreadSafeRandAgent.add_agent_with_max_failures st2 p m mf =
      st2 ++ [ThreadSafeAgentState.new p m mf] := by
  intro st st2 id p m mf
  exact ⟨rfl, u32_three, rfl, rfl, u32_three, rfl⟩

/-- Claim C10: a successful prompt_with_info call returns next to the text
the AgentInfo snapshot cloned before the counter update, so the returned
failure_count is the pre-call value of the served entry, while the entry
itself ends the call with counter 0. -/
theorem c10_theorem : ∀ (st : List AgentState) (pick i : Nat) (c : String),
    get_random_valid_agent_index st pick = some i →
    (RandAgent.prompt_with_info st pick (.success c)).result =
      .ok (c, (st.getD i default).info) ∧
    ((RandAgent.prompt_with_info st pick
        (.success c)).state.getD i default).info.failure_count = 0 := by
  intro st pick i c hsel
  obtain ⟨s, hs, _⟩ := sel_some_spec st pick i hsel
  have hlen : i < st.length := lt_length_of_getElem? hs
  constructor
  · rw [pwi_sel_success st pick i c hsel]
  · rw [pwi_sel_success st pick i c hsel]
    show ((st.set i (st.getD i default).record_success).getD i default).info.failure_count = 0
    rw [List.getD_eq_getElem?_getD, List.getElem?_set_self hlen, Option.getD_some]
    rfl

/-- Claim C10 witness: c10_theorem applied to snapshotPool, whose entry
carries 2 recorded failures before the call; the returned snapshot still
shows failure_count 2 while the post-call entry shows 0. -/
theorem c10_witness :
    (snapshotPool.getD 0 default).info.failure_count = 2 ∧
    ((RandAgent.prompt_with_info snapshotPool 0 (.success "pong")).result =
      .ok ("pong", (snapshotPool.getD 0 default).info) ∧
    ((RandAgent.prompt_with_info snapshotPool 0
        (.success "pong")).state.getD 0 default).info.failure_count = 0) :=
  ⟨by decide, c10_theorem snapshotPool 0 0 "pong" (by decide)⟩
